import Mathlib

/-!
Verification of the brickify jQuery plugin (src/dist/jquery.brickify.js)
against its natural-language specification.

The plugin's numeric values (image widths, brick sizes) are modelled as
integers (`ℤ`), and JavaScript floating-point arithmetic on ratios as exact
rational arithmetic (`ℚ`).  `parseInt(x, 10)` applied to a number is
truncation toward zero, modelled by `ratTrunc`; `Math.round` is rounding
half toward positive infinity, modelled by `jsRound`.  The `%` operator is
used by the source only on nonnegative operands with a positive divisor,
where JavaScript's remainder agrees with `Int.emod` (Lean's `%`).
-/

set_option maxRecDepth 8000

namespace Brickify

/-- One entry of the `thresholds` table (source lines 19-34): a maximum
image width together with optional clamping bounds for the brick size. -/
structure Threshold where
  maxImageWidth : ℤ
  minBrickSize : Option ℤ
  maxBrickSize : Option ℤ
deriving DecidableEq, Repr

/-- The plugin settings (source lines 16-35). -/
structure Settings where
  originalBricksize : ℚ
  ratio : ℚ
  thresholds : List Threshold
deriving DecidableEq, Repr

/-- The default settings object (source lines 16-35):
`originalBricksize: 73`, `ratio: 1/40`, and the three-entry threshold
table. -/
def defaults : Settings :=
  { originalBricksize := 73
    ratio := 1/40
    thresholds :=
      [ { maxImageWidth := 300, minBrickSize := some 7, maxBrickSize := some 15 }
      , { maxImageWidth := 1200, minBrickSize := some 15, maxBrickSize := some 26 }
      , { maxImageWidth := 1600, minBrickSize := none, maxBrickSize := some 36 } ] }

/-- JavaScript `parseInt(q, 10)` applied to a (non-exponential) numeric
value: truncation toward zero.  `Int.tdiv` is T-division, which truncates
the exact quotient `q.num / q.den` toward zero. -/
def ratTrunc (q : ℚ) : ℤ :=
  Int.tdiv q.num q.den

/-- JavaScript `Math.round`: round to the nearest integer, rounding ties
toward positive infinity. -/
def jsRound (q : ℚ) : ℤ :=
  ⌊q + 1/2⌋

/-- One iteration of the `$(thresholds).each(...)` loop in `_getGridSize`
(source lines 56-61).  The accumulator plays the role of the mutable pair
`(hasThresholdMatch, threshold)`: once a threshold has matched
(`acc = some _`), later iterations leave it unchanged; otherwise a
threshold `t` with `imageWidth <= t.maxImageWidth` is recorded. -/
def thresholdStep (imageWidth : ℤ) (acc : Option Threshold) (t : Threshold) :
    Option Threshold :=
  match acc with
  | some u => some u
  | none => if imageWidth ≤ t.maxImageWidth then some t else none

/-- The threshold selected by `_getGridSize` (source lines 56-63): the
first threshold whose `maxImageWidth` is at least the image width, or
`thresholds[thresholds.length-1]` when none matches.  `none` corresponds
to the crash the source would hit on an empty threshold list. -/
def selectThreshold (imageWidth : ℤ) (thresholds : List Threshold) :
    Option Threshold :=
  match thresholds.foldl (thresholdStep imageWidth) none with
  | some t => some t
  | none => thresholds.getLast?

/-- The clamping step of `_getGridSize` (source lines 65-69):
`if (maxBrickSize defined && gridSize > maxBrickSize) gridSize = maxBrickSize;
else if (minBrickSize defined && gridSize < minBrickSize) gridSize = minBrickSize;`. -/
def clampGridSize (t : Threshold) (gridSize : ℤ) : ℤ :=
  match t.maxBrickSize with
  | some mx =>
    if mx < gridSize then mx
    else
      match t.minBrickSize with
      | some mn => if gridSize < mn then mn else gridSize
      | none => gridSize
  | none =>
    match t.minBrickSize with
    | some mn => if gridSize < mn then mn else gridSize
    | none => gridSize

/-- Source function `_getGridSize` (lines 47-73):
`parseInt(imageWidth * ratio, 10)` followed by threshold selection and
clamping. -/
def getGridSize (imageWidth : ℤ) (ratio : ℚ) (thresholds : List Threshold) :
    Option ℤ :=
  let gridSize := ratTrunc ((imageWidth : ℚ) * ratio)
  (selectThreshold imageWidth thresholds).map fun t => clampGridSize t gridSize

/-- Modelled from the spec's words for the Grid Sizer (spec section 4.1),
clamping step: "if the selected threshold defines `maxBrickSize` and
`raw > maxBrickSize`, result = `maxBrickSize`; else if it defines
`minBrickSize` and `raw < minBrickSize`, result = `minBrickSize`; else
result = `raw`". -/
def specClamp (t : Threshold) (raw : ℤ) : ℤ :=
  if t.maxBrickSize.isSome ∧ raw > t.maxBrickSize.getD raw then t.maxBrickSize.getD raw
  else if t.minBrickSize.isSome ∧ raw < t.minBrickSize.getD raw then t.minBrickSize.getD raw
  else raw

/-- Modelled from the spec's words for the Grid Sizer (spec section 4.1),
selection step: "Scan thresholds in order; select the first whose
`maxImageWidth >= imageWidth` (first match wins). If none match, select
the last threshold in the sequence." -/
def specSelect (imageWidth : ℤ) (thresholds : List Threshold) :
    Option Threshold :=
  match thresholds.find? (fun t => decide (imageWidth ≤ t.maxImageWidth)) with
  | some t => some t
  | none => thresholds.getLast?

/-- Modelled from the spec's words for the Grid Sizer (spec section 4.1):
"compute `raw = floor(imageWidth * ratio)`", then selection and clamping. -/
def computeGridSizeSpec (imageWidth : ℤ) (ratio : ℚ)
    (thresholds : List Threshold) : Option ℤ :=
  let raw := ⌊(imageWidth : ℚ) * ratio⌋
  (specSelect imageWidth thresholds).map fun t => specClamp t raw

/-- The per-invocation instance state stored on `self` by
`Plugin.prototype.init` (source lines 405-412). -/
structure PluginState where
  ratio : ℚ
  originalBricksize : ℚ
  thresholds : List Threshold
  gridSize : ℤ
  brickRatio : ℚ
  stageWidth : ℤ
  stageHeight : ℤ
deriving DecidableEq, Repr

/-- The state derivation of `Plugin.prototype.init` (source lines 405-412):
`gridSize = _getGridSize()`, `brickRatio = gridSize/originalBricksize`,
`stageWidth = element.width - (element.width % gridSize)` and likewise for
the height.  `none` corresponds to the crash on an empty threshold list. -/
def init (width height : ℤ) (settings : Settings) : Option PluginState :=
  (getGridSize width settings.ratio settings.thresholds).map fun g =>
    { ratio := settings.ratio
      originalBricksize := settings.originalBricksize
      thresholds := settings.thresholds
      gridSize := g
      brickRatio := (g : ℚ) / settings.originalBricksize
      stageWidth := width - width % g
      stageHeight := height - height % g }

/-- Source function `_getScaledValue` (lines 96-104): `value * brickRatio`,
rounded with `Math.round` when
`self.stageWidth <= self.thresholds[0].maxImageWidth`.  `none` corresponds
to the crash on an empty threshold list. -/
def getScaledValue (s : PluginState) (value : ℚ) : Option ℚ :=
  match s.thresholds.head? with
  | none => none
  | some t =>
    let newVal := value * s.brickRatio
    some (if s.stageWidth ≤ t.maxImageWidth then (jsRound newVal : ℚ) else newVal)

/-- The image element's mutable attributes touched by `_onImageError`
(source lines 358-362). -/
structure ImgElement where
  width : ℤ
  height : ℤ
  src : String
deriving DecidableEq, Repr

/-- The base64 GIF payload assigned by `_onImageError` (source line 361). -/
def brokenImageSrc : String :=
  "data:image/gif;base64,R0lGODlhIQAiAMT/AJkQZ/9rzYplzrqZ/3Zmm9vN/zplZgD9myWaZfT/zPHPmcCcZf///83Nzby8vKysrJqamomJiXh4eFRUVAAAAAAAAAAAAAAAAAAAAAAAAAAAAAAAAAAAAAAAAAAAAAAAACwAAAAAIQAiAAAF/yAjjmRpnqakrmzrrigjxfSoonNNS01e5o6gcEgkznopURGyKg5zSBLwKUEgBhSK0+GLiqbByCxhkBi0Th/DC+YiFoqq4Zwucb9KoTzyOMzRRFmCgngMTwNmc2eARBOOjxSFQxAUBgh/FBMRWxGdnZEyeUJZi1kTEltCIqBtYYKPm6kOq5JFYrCyQQyatUtinS8SWiKOEZKoWxB3BcwCBQKZu50Px4xFEszPzwQjvDZKM9ZPzc8CxMVS4Ktb2M7m59PphjMBDOJczeea1D/qAfXifMDicwIIvQAA7OkqUYxgCVb+EALUB4ufCYjzGEiUuEuTpwcWLx5jAKAkCW80ZjvZO4ZwQkdYOlRidDBI2rSQJxbOdPBImg5DqlaGAqoSXQ0itIZ284jzp1A1xZo6FTook0MaVbNO3ToiBAA7"

/-- The observable state the error handlers act on: the target image
element, the process-wide busy flag stored as
`$("body").data("lego-yourself:processing")`, the events triggered on the
element, and the draw operations performed so far. -/
structure ControllerState where
  element : ImgElement
  processing : Bool
  emitted : List String
  drawn : List String
deriving DecidableEq, Repr

/-- Source function `_setProcessing` (lines 304-306): store the busy flag
on the body element. -/
def setProcessing (val : Bool) (s : ControllerState) : ControllerState :=
  { s with processing := val }

/-- Source function `_onEffectError` (lines 367-369): the whole handler
body is `_setProcessing(false)`. -/
def onEffectError (s : ControllerState) : ControllerState :=
  setProcessing false s

/-- Source function `_onImageError` (lines 358-362): set the element to
the fixed 34x34 broken-image placeholder. -/
def onImageError (s : ControllerState) : ControllerState :=
  { s with element := { width := 34, height := 34, src := brokenImageSrc } }

/-- Observable events of one pipeline run, in the order the callback chain
of `_process` (source lines 374-379) and `_paintBrickPattern` (source
lines 315-353) produces them. -/
inductive PEvent where
  | effectStarted (name : String)
  | effectCompleted (name : String)
  | shadowPatternDrawn
  | gridDrawn
  | highlightPatternDrawn
  | processingCleared
  | brickifiedEmitted
deriving DecidableEq, Repr

/-- The suspension points of one pipeline run: which single callback is
pending.  `_process` awaits the `removenoise` callback, then (after a
`setTimeout`) the `mosaic` callback; `_paintBrickPattern` awaits the
scratch image `load` event twice, first with `operation = "multiply"`
(the shadow pass) and then with `operation = "lighter"` (the highlight
pass). -/
inductive PipePhase where
  | awaitNoise
  | awaitMosaic
  | awaitShadowLoad
  | awaitHighlightLoad
  | done
deriving DecidableEq, Repr

/-- Firing the unique pending callback of a phase runs the corresponding
handler from the source and installs the next pending callback:
* `awaitNoise`: the `removenoise` callback (source line 377) starts the
  `mosaic` effect;
* `awaitMosaic`: the `mosaic` callback is `_paintBrickPattern` (source
  lines 315-353), which sets the scratch image source to the shadow
  artwork and awaits its `load` event;
* `awaitShadowLoad`: the `multiply` branch (source lines 326-337) fills
  the stage with the shadow pattern, draws the grid, and sets the scratch
  image source to the highlight artwork;
* `awaitHighlightLoad`: the `lighter` branch (source lines 339-347) fills
  the stage with the highlight pattern, clears the busy flag and triggers
  `image:brickified`. -/
def stepPipe : PipePhase → Option (List PEvent × PipePhase)
  | .awaitNoise =>
    some ([.effectCompleted "removenoise", .effectStarted "mosaic"], .awaitMosaic)
  | .awaitMosaic =>
    some ([.effectCompleted "mosaic"], .awaitShadowLoad)
  | .awaitShadowLoad =>
    some ([.shadowPatternDrawn, .gridDrawn], .awaitHighlightLoad)
  | .awaitHighlightLoad =>
    some ([.highlightPatternDrawn, .processingCleared, .brickifiedEmitted], .done)
  | .done => none

/-- The events emitted when the environment fires `n` callbacks starting
from phase `p`. -/
def runPipe : Nat → PipePhase → List PEvent
  | 0, _ => []
  | n + 1, p =>
    match stepPipe p with
    | none => []
    | some (evs, p') => evs ++ runPipe n p'

/-- The trace of a pipeline run in which the environment fires `n`
callbacks: `_process` first starts the `removenoise` effect (source line
376), then the callback chain runs. -/
def pipeTrace (n : Nat) : List PEvent :=
  PEvent.effectStarted "removenoise" :: runPipe n PipePhase.awaitNoise

/-- Event `a` strictly precedes event `b` in trace `tr`: whenever `b` has
occurred, `a` has occurred before it. -/
def precedes (a b : PEvent) (tr : List PEvent) : Prop :=
  b ∈ tr → a ∈ tr ∧ tr.indexOf a < tr.indexOf b

instance (a b : PEvent) (tr : List PEvent) : Decidable (precedes a b tr) :=
  if hb : b ∈ tr then
    if ha : a ∈ tr ∧ tr.indexOf a < tr.indexOf b then isTrue fun _ => ha
    else isFalse fun h => ha (h hb)
  else isTrue fun h => absurd h hb

/-- The plugin state produced by `init 301 301 defaults`: grid size 15
(raw 7 clamped up), stage 300 x 300. -/
def sNarrow : PluginState :=
  { ratio := 1/40, originalBricksize := 73, thresholds := defaults.thresholds
    gridSize := 15, brickRatio := 15/73, stageWidth := 300, stageHeight := 300 }

/-- The plugin state produced by `init 302 600 defaults`: grid size 15,
stage 300 x 600. -/
def sMid : PluginState :=
  { ratio := 1/40, originalBricksize := 73, thresholds := defaults.thresholds
    gridSize := 15, brickRatio := 15/73, stageWidth := 300, stageHeight := 600 }

/-- The plugin state produced by `init 2000 2000 defaults`: grid size 36
(raw 50 clamped down), stage 1980 x 1980. -/
def sWide : PluginState :=
  { ratio := 1/40, originalBricksize := 73, thresholds := defaults.thresholds
    gridSize := 36, brickRatio := 36/73, stageWidth := 1980, stageHeight := 1980 }

/-- The plugin state produced by `init 280 280 defaults`: grid size 7,
stage 280 x 280. -/
def sSmall : PluginState :=
  { ratio := 1/40, originalBricksize := 73, thresholds := defaults.thresholds
    gridSize := 7, brickRatio := 7/73, stageWidth := 280, stageHeight := 280 }

/-! ### Helper lemmas -/

/-- Once the each-loop of `_getGridSize` has recorded a match, the
remaining iterations leave it unchanged. -/
theorem foldl_thresholdStep_some (w : ℤ) (u : Threshold) (ts : List Threshold) :
    ts.foldl (thresholdStep w) (some u) = some u := by
  induction ts with
  | nil => rfl
  | cons t ts ih => rw [List.foldl_cons]; exact ih

/-- The each-loop of `_getGridSize` computes the first matching
threshold. -/
theorem foldl_thresholdStep_eq_find (w : ℤ) (ts : List Threshold) :
    ts.foldl (thresholdStep w) none
      = ts.find? (fun t => decide (w ≤ t.maxImageWidth)) := by
  induction ts with
  | nil => rfl
  | cons t ts ih =>
    rw [List.foldl_cons, List.find?_cons]
    by_cases h : w ≤ t.maxImageWidth
    · simp [thresholdStep, h, foldl_thresholdStep_some]
    · simp [thresholdStep, h, ih]

/-- The threshold selection of the source agrees with the spec's
description of it. -/
theorem selectThreshold_eq_specSelect (w : ℤ) (ts : List Threshold) :
    selectThreshold w ts = specSelect w ts := by
  rw [selectThreshold, specSelect, foldl_thresholdStep_eq_find]

/-- The clamping step of the source agrees with the spec's description of
it. -/
theorem clampGridSize_eq_specClamp (t : Threshold) (g : ℤ) :
    clampGridSize t g = specClamp t g := by
  rcases t with ⟨mw, mn, mx⟩
  rcases mx with _ | mx <;> rcases mn with _ | mn <;>
    simp [clampGridSize, specClamp] <;> split_ifs <;> omega

/-- On a nonnegative rational, JavaScript's `parseInt` truncation agrees
with the floor the spec uses. -/
theorem ratTrunc_eq_floor (q : ℚ) (hq : 0 ≤ q) : ratTrunc q = ⌊q⌋ := by
  rw [ratTrunc, Rat.floor_def]
  exact Int.tdiv_eq_ediv (Rat.num_nonneg.mpr hq) (Int.natCast_nonneg q.den)

/-- Inversion of `init`: the stored instance state in terms of the
element's dimensions and the settings. -/
theorem init_inv (w h : ℤ) (stg : Settings) (s : PluginState)
    (hs : init w h stg = some s) :
    s.thresholds = stg.thresholds ∧
    getGridSize w stg.ratio stg.thresholds = some s.gridSize ∧
    s.brickRatio = (s.gridSize : ℚ) / stg.originalBricksize ∧
    s.stageWidth = w - w % s.gridSize ∧
    s.stageHeight = h - h % s.gridSize := by
  simp only [init, Option.map_eq_some'] at hs
  obtain ⟨g, hg, rfl⟩ := hs
  exact ⟨rfl, hg, rfl, rfl, rfl⟩

/-- Once the pipeline is done, firing further callbacks emits nothing. -/
theorem runPipe_done (n : Nat) : runPipe n PipePhase.done = [] := by
  cases n <;> rfl

/-- After four callbacks the pipeline trace is complete: more callbacks
add nothing. -/
theorem pipeTrace_stable (m : Nat) : pipeTrace (m + 4) = pipeTrace 4 := by
  simp [pipeTrace, runPipe, stepPipe, runPipe_done]

/-! ### Claim theorems -/

/-- C1: for every nonnegative image width, nonnegative ratio and non-empty
threshold sequence, `_getGridSize` computes exactly the spec's algorithm:
`raw = floor(width * ratio)`, first threshold with
`maxImageWidth >= width` (first match wins) or else the last threshold,
max clamp tried before min clamp, at most one clamp applied. -/
theorem getGridSize_eq_spec (imageWidth : ℤ) (ratio : ℚ)
    (thresholds : List Threshold) (hw : 0 ≤ imageWidth) (hr : 0 ≤ ratio)
    (hne : thresholds ≠ []) :
    getGridSize imageWidth ratio thresholds
      = computeGridSizeSpec imageWidth ratio thresholds := by
  have hq : (0:ℚ) ≤ (imageWidth : ℚ) * ratio :=
    mul_nonneg (by exact_mod_cast hw) hr
  simp only [getGridSize, computeGridSizeSpec, selectThreshold_eq_specSelect,
    ratTrunc_eq_floor _ hq, clampGridSize_eq_specClamp]

/-- Witness for C1 at image width 280, ratio 1/40 and the default
threshold table. -/
theorem getGridSize_eq_spec_witness :
    0 ≤ (280:ℤ) ∧ (0:ℚ) ≤ 1/40 ∧ defaults.thresholds ≠ [] ∧
      getGridSize 280 (1/40) defaults.thresholds
        = computeGridSizeSpec 280 (1/40) defaults.thresholds :=
  ⟨by decide, by with_unfolding_all decide, by decide,
   getGridSize_eq_spec 280 (1/40) defaults.thresholds (by decide)
     (by with_unfolding_all decide) (by decide)⟩

/-- C2, counterexample: at source image width 301 (strictly greater than
the first threshold's `maxImageWidth` of 300) the claim predicts the
unrounded value `1 * brickRatio = 15/73`, but the code rounds (because
`stageWidth = 301 - 301 % 15 = 300 <= 300`) and returns 0. -/
theorem scaledValue_imageWidth_counterexample :
    init 301 301 defaults = some sNarrow ∧
    ¬ ((301:ℤ) ≤ 300) ∧
    sNarrow.brickRatio = 15/73 ∧
    getScaledValue sNarrow 1 = some 0 ∧
    (0:ℚ) ≠ 1 * (15/73) := by
  with_unfolding_all decide

/-- C2, amended: `_getScaledValue` returns `value * brickRatio` rounded to
the nearest integer exactly when the STAGE width
(`element.width - element.width % gridSize`) is at most the first
threshold's `maxImageWidth`, and the unrounded product otherwise. -/
theorem scaledValue_rounds_iff_stageWidth (w h : ℤ) (stg : Settings)
    (s : PluginState) (hs : init w h stg = some s) (t : Threshold)
    (ht : stg.thresholds.head? = some t) (v : ℚ) :
    getScaledValue s v =
      some (if w - w % s.gridSize ≤ t.maxImageWidth
            then (jsRound (v * s.brickRatio) : ℚ) else v * s.brickRatio) := by
  simp only [init, Option.map_eq_some'] at hs
  obtain ⟨g, hg, rfl⟩ := hs
  simp [getScaledValue, ht]

/-- Witness for the amended C2 at element width and height 301 with the
default settings. -/
theorem scaledValue_rounds_iff_stageWidth_witness :
    init 301 301 defaults = some sNarrow ∧
    defaults.thresholds.head? =
      some { maxImageWidth := 300, minBrickSize := some 7, maxBrickSize := some 15 } ∧
    getScaledValue sNarrow 1 =
      some (if (301:ℤ) - 301 % sNarrow.gridSize ≤ (300:ℤ)
            then (jsRound (1 * sNarrow.brickRatio) : ℚ) else 1 * sNarrow.brickRatio) :=
  ⟨by with_unfolding_all decide, by decide,
   scaledValue_rounds_iff_stageWidth 301 301 defaults sNarrow
     (by with_unfolding_all decide)
     { maxImageWidth := 300, minBrickSize := some 7, maxBrickSize := some 15 }
     (by decide) 1⟩

/-- C3: on an effect error the controller only clears the process-wide
busy flag; it emits no event (in particular no `image:brickified`), draws
nothing, and leaves the element untouched. -/
theorem effectError_clears_flag_only (s : ControllerState) :
    (onEffectError s).processing = false ∧
    (onEffectError s).emitted = s.emitted ∧
    (onEffectError s).drawn = s.drawn ∧
    (onEffectError s).element = s.element :=
  ⟨rfl, rfl, rfl, rfl⟩

/-- C4: on an image load error the handler sets the element's width and
height to 34 and its source to the fixed placeholder payload, and leaves
the process-wide busy flag exactly as it was (in particular it is not
reset to false). -/
theorem imageError_placeholder_keeps_flag (s : ControllerState) :
    (onImageError s).element.width = 34 ∧
    (onImageError s).element.height = 34 ∧
    (onImageError s).element.src = brokenImageSrc ∧
    (onImageError s).processing = s.processing :=
  ⟨rfl, rfl, rfl, rfl⟩

/-- C5: whenever `init` succeeds and the computed grid size is positive,
both derived stage dimensions are exact multiples of the grid size. -/
theorem stage_dims_multiple_of_gridSize (w h : ℤ) (stg : Settings)
    (s : PluginState) (hs : init w h stg = some s) (hpos : 0 < s.gridSize) :
    s.stageWidth % s.gridSize = 0 ∧ s.stageHeight % s.gridSize = 0 := by
  simp only [init, Option.map_eq_some'] at hs
  obtain ⟨g, hg, rfl⟩ := hs
  constructor <;>
    simp [Int.sub_emod, Int.emod_emod_of_dvd _ dvd_rfl]

/-- Witness for C5 at element width and height 280 with the default
settings (grid size 7). -/
theorem stage_dims_multiple_of_gridSize_witness :
    init 280 280 defaults = some sSmall ∧ 0 < sSmall.gridSize ∧
      (sSmall.stageWidth % sSmall.gridSize = 0 ∧
       sSmall.stageHeight % sSmall.gridSize = 0) :=
  ⟨by with_unfolding_all decide, by decide,
   stage_dims_multiple_of_gridSize 280 280 defaults sSmall
     (by with_unfolding_all decide) (by decide)⟩

/-- C6: with default settings, width 280 yields grid size 7 (raw
`parseInt(280/40) = 7` equals threshold 1's `minBrickSize`, no clamp
triggered); width 300 still selects threshold 1 while width 301 selects
threshold 2, so width 301 yields grid size 15 via the min clamp. -/
theorem default_grid_boundary_scenario :
    getGridSize 280 (1/40) defaults.thresholds = some 7 ∧
    ratTrunc ((280:ℚ) * (1/40)) = 7 ∧
    defaults.thresholds.head?.map Threshold.minBrickSize = some (some 7) ∧
    selectThreshold 300 defaults.thresholds =
      some { maxImageWidth := 300, minBrickSize := some 7, maxBrickSize := some 15 } ∧
    selectThreshold 301 defaults.thresholds =
      some { maxImageWidth := 1200, minBrickSize := some 15, maxBrickSize := some 26 } ∧
    getGridSize 300 (1/40) defaults.thresholds = some 7 ∧
    getGridSize 301 (1/40) defaults.thresholds = some 15 := by
  with_unfolding_all decide

/-- C7: with default settings, width 2000 exceeds every threshold's
`maxImageWidth`, so selection falls back to the last threshold
(`maxBrickSize: 36`); raw `parseInt(2000/40) = 50` is clamped down to
36. -/
theorem default_grid_wide_fallback :
    (∀ t ∈ defaults.thresholds, t.maxImageWidth < 2000) ∧
    selectThreshold 2000 defaults.thresholds =
      some { maxImageWidth := 1600, minBrickSize := none, maxBrickSize := some 36 } ∧
    ratTrunc ((2000:ℚ) * (1/40)) = 50 ∧
    getGridSize 2000 (1/40) defaults.thresholds = some 36 := by
  with_unfolding_all decide

/-- C8, counterexample: at source image width 302 (strictly greater than
the first threshold's `maxImageWidth` of 300) the code still rounds,
because the stage width 300 is what the condition tests; so "rounding
only applies when the image width is at most the first threshold's
`maxImageWidth`" fails. -/
theorem scaler_rounding_mode_counterexample :
    init 302 600 defaults = some sMid ∧
    ¬ ((302:ℤ) ≤ 300) ∧
    getScaledValue sMid 1 = some 0 ∧
    (0:ℚ) ≠ 1 * sMid.brickRatio := by
  with_unfolding_all decide

/-- C8, amended: in non-rounded (large-image) mode — stage width strictly
greater than the first threshold's `maxImageWidth` — the scaler is linear
(`scale(2v) = 2 * scale(v)`) and returns the exact product; rounding
applies only when the STAGE width is at most the first threshold's
`maxImageWidth`. -/
theorem scaler_linear_nonrounded (s : PluginState) (t : Threshold)
    (ht : s.thresholds.head? = some t) (hbig : t.maxImageWidth < s.stageWidth)
    (v : ℚ) :
    getScaledValue s (2 * v) = Option.map (fun x => 2 * x) (getScaledValue s v) ∧
    getScaledValue s v = some (v * s.brickRatio) := by
  have h := not_le.mpr hbig
  simp [getScaledValue, ht, h, mul_assoc]

/-- Witness for the amended C8 in the state produced by
`init 2000 2000 defaults` (stage width 1980 > 300) at value 1. -/
theorem scaler_linear_nonrounded_witness :
    sWide.thresholds.head? =
      some { maxImageWidth := 300, minBrickSize := some 7, maxBrickSize := some 15 } ∧
    ({ maxImageWidth := 300, minBrickSize := some 7, maxBrickSize := some 15 }
        : Threshold).maxImageWidth < sWide.stageWidth ∧
    (getScaledValue sWide (2 * 1) =
        Option.map (fun x => 2 * x) (getScaledValue sWide 1) ∧
     getScaledValue sWide 1 = some (1 * sWide.brickRatio)) :=
  ⟨by decide, by decide,
   scaler_linear_nonrounded sWide
     { maxImageWidth := 300, minBrickSize := some 7, maxBrickSize := some 15 }
     (by decide) (by decide) 1⟩

/-- C9: in every (partial or complete) pipeline run, the noise-removal
effect completes before the mosaic effect starts, the mosaic completes
before the shadow pattern is drawn, and the shadow pass (pattern and grid)
is drawn before the highlight pattern; moreover the phases form a single
linear chain, so each stage is triggered only by the previous stage's
callback. -/
theorem pipeline_stage_order (n : Nat) :
    precedes (.effectCompleted "removenoise") (.effectStarted "mosaic")
      (pipeTrace n) ∧
    precedes (.effectCompleted "mosaic") .shadowPatternDrawn (pipeTrace n) ∧
    precedes .shadowPatternDrawn .highlightPatternDrawn (pipeTrace n) ∧
    precedes .gridDrawn .highlightPatternDrawn (pipeTrace n) ∧
    (stepPipe .awaitNoise).map Prod.snd = some .awaitMosaic ∧
    (stepPipe .awaitMosaic).map Prod.snd = some .awaitShadowLoad ∧
    (stepPipe .awaitShadowLoad).map Prod.snd = some .awaitHighlightLoad ∧
    (stepPipe .awaitHighlightLoad).map Prod.snd = some .done := by
  rcases n with _ | (_ | (_ | (_ | m)))
  · decide
  · decide
  · decide
  · decide
  · rw [show m + 1 + 1 + 1 + 1 = m + 4 by omega, pipeTrace_stable]
    decide

/-- C10: with the default settings every positive image width yields a
grid size between 7 and 36 inclusive — in particular positive, so the
stage-dimension modulo operations never divide by zero. -/
theorem default_gridSize_bounds (w : ℤ) (hw : 0 < w) :
    ∃ g, getGridSize w (1/40) defaults.thresholds = some g ∧
      7 ≤ g ∧ g ≤ 36 ∧ 0 < g := by
  have hnn : (0:ℚ) ≤ (w:ℚ) * (1/40) :=
    mul_nonneg (by exact_mod_cast hw.le) (by norm_num)
  have htr : ratTrunc ((w:ℚ) * (1/40)) = w / 40 := by
    rw [ratTrunc_eq_floor _ hnn, mul_one_div]
    exact_mod_cast Rat.floor_intCast_div_natCast w 40
  have key : ∀ t : Threshold,
      selectThreshold w defaults.thresholds = some t →
      getGridSize w (1/40) defaults.thresholds
        = some (clampGridSize t (w / 40)) := by
    intro t hsel
    simp only [getGridSize, hsel, Option.map_some']
    rw [htr]
  by_cases h1 : w ≤ 300
  · refine ⟨clampGridSize ⟨300, some 7, some 15⟩ (w / 40),
      key _ (by simp [selectThreshold, defaults, thresholdStep, h1,
        foldl_thresholdStep_some]), ?_⟩
    simp only [clampGridSize]
    split_ifs <;> omega
  · by_cases h2 : w ≤ 1200
    · refine ⟨clampGridSize ⟨1200, some 15, some 26⟩ (w / 40),
        key _ (by simp [selectThreshold, defaults, thresholdStep, h1, h2,
          foldl_thresholdStep_some]), ?_⟩
      simp only [clampGridSize]
      split_ifs <;> omega
    · by_cases h3 : w ≤ 1600
      · refine ⟨clampGridSize ⟨1600, none, some 36⟩ (w / 40),
          key _ (by simp [selectThreshold, defaults, thresholdStep, h1, h2, h3,
            foldl_thresholdStep_some]), ?_⟩
        simp only [clampGridSize]
        split_ifs <;> omega
      · refine ⟨clampGridSize ⟨1600, none, some 36⟩ (w / 40),
          key _ (by simp [selectThreshold, defaults, thresholdStep, h1, h2, h3]),
          ?_⟩
        simp only [clampGridSize]
        split_ifs <;> omega

/-- Witness for C10 at image width 280. -/
theorem default_gridSize_bounds_witness :
    0 < (280:ℤ) ∧ ∃ g, getGridSize 280 (1/40) defaults.thresholds = some g ∧
      7 ≤ g ∧ g ≤ 36 ∧ 0 < g :=
  ⟨by decide, default_gridSize_bounds 280 (by decide)⟩

end Brickify
